import Mathlib

/-!
Shallow embedding of the crime-viz-flow analytical core.

The TypeScript source under `src/components` is modelled as follows:

* JS `number` values are rationals (`ℚ`); `Math.random()` calls are made
  explicit: every random call site becomes a field of an oracle record
  (`RowRand`, `SimRand`) passed to the embedded function, so stochastic
  code becomes a deterministic function of its random draws.
* JS strings are Lean `String`s; `String.prototype.toLowerCase` is mapped
  over characters, `String.prototype.includes` is an executable substring
  check, and `localeCompare` is modelled as code-point lexicographic
  comparison (the spec's "case-sensitive lexicographic" rule; the two
  agree on the ASCII identifiers this program manipulates).
* `parseFloat` is modelled for decimal literals (optional sign, digits,
  optional fraction); a non-numeric string yields `none` (JS `NaN`).
* React component state becomes explicit state records
  (`DashboardState`, `SimulatorState`, `AppState`); an event handler
  becomes a function from state to state plus observable outputs.
* `Array.prototype.sort` (guaranteed stable by the ECMAScript spec) is
  modelled by the stable `List.mergeSort`.
-/

/-- Lexicographic three-way comparison of character lists by code point. -/
def lexCmp : List Char → List Char → Ordering
  | [], [] => Ordering.eq
  | [], _ :: _ => Ordering.lt
  | _ :: _, [] => Ordering.gt
  | a :: as, b :: bs =>
    if a < b then Ordering.lt else if b < a then Ordering.gt else lexCmp as bs

/-- Model of JS `a.localeCompare(b)`: negative, zero or positive rational
according to code-point lexicographic order. -/
def jsStrCmp (s t : String) : ℚ :=
  match lexCmp s.data t.data with
  | Ordering.lt => -1
  | Ordering.eq => 0
  | Ordering.gt => 1

/-- Whether the first list starts with the second list. -/
def strStarts : List Char → List Char → Bool
  | _, [] => true
  | [], _ :: _ => false
  | a :: as, b :: bs => a == b && strStarts as bs

/-- Whether `needle` occurs as a contiguous run inside the second list. -/
def strHas (needle : List Char) : List Char → Bool
  | [] => needle.isEmpty
  | c :: rest => strStarts (c :: rest) needle || strHas needle rest

/-- Model of JS `s.includes(sub)`. -/
def jsIncludes (s sub : String) : Bool :=
  strHas sub.data s.data

/-- Model of JS `s.toLowerCase()` (character-wise lowering). -/
def jsToLower (s : String) : String :=
  String.mk (s.data.map Char.toLower)

/-- Value of a run of decimal digit characters. -/
def natOfDigits (cs : List Char) : ℕ :=
  cs.foldl (fun acc c => 10 * acc + (c.toNat - '0'.toNat)) 0

/-- Model of JS `parseFloat` restricted to decimal literals: optional
sign, integer digits, optional `.` and fraction digits. `none` models the
JS result `NaN` (no digits at all). Exponents, `Infinity` and leading
whitespace are not modelled; no input in this development uses them. -/
def jsParseFloat (s : String) : Option ℚ :=
  let afterSign : Bool × List Char :=
    match s.data with
    | '-' :: t => (true, t)
    | '+' :: t => (false, t)
    | t => (false, t)
  let neg := afterSign.1
  let cs := afterSign.2
  let intPart := cs.takeWhile Char.isDigit
  let rest := cs.dropWhile Char.isDigit
  let fracPart :=
    match rest with
    | '.' :: t => t.takeWhile Char.isDigit
    | _ => []
  if intPart.isEmpty && fracPart.isEmpty then none
  else
    let mag : ℚ := (natOfDigits intPart : ℚ) + (natOfDigits fracPart : ℚ) / ((10 : ℚ) ^ fracPart.length)
    some (if neg then -mag else mag)

/-- Model of JS `s.padStart(6, '0')`. -/
def padStart6 (s : String) : String :=
  String.mk (List.replicate (6 - s.length) '0') ++ s

/-- Transaction id assigned at position `i` of an ingested batch:
"TXN-" followed by the 1-based index zero-padded to six digits
(`TXN-${String(index + 1).padStart(6, '0')}` in the source). -/
def txnId (i : ℕ) : String :=
  "TXN-" ++ padStart6 (Nat.repr (i + 1))

/-- The `'HIGH' | 'MEDIUM' | 'LOW'` union of the source. -/
inductive RiskLevel where
  | HIGH
  | MEDIUM
  | LOW
deriving DecidableEq, BEq

/-- String form of a risk level (the union member itself in the source). -/
def riskLevelStr : RiskLevel → String
  | RiskLevel.HIGH => "HIGH"
  | RiskLevel.MEDIUM => "MEDIUM"
  | RiskLevel.LOW => "LOW"

/-- The `'FLAGGED' | 'CLEARED' | 'PENDING'` union of the source. -/
inductive TxStatus where
  | FLAGGED
  | CLEARED
  | PENDING
deriving DecidableEq, BEq

/-- String form of a transaction status. -/
def statusStr : TxStatus → String
  | TxStatus.FLAGGED => "FLAGGED"
  | TxStatus.CLEARED => "CLEARED"
  | TxStatus.PENDING => "PENDING"

/-- The `Transaction` interface of `SuspiciousTransactionsTable.tsx`. -/
structure Transaction where
  id : String
  amount : ℚ
  from_account : String
  to_account : String
  timestamp : String
  risk_score : ℚ
  risk_level : RiskLevel
  reason_codes : List String
  status : TxStatus
deriving DecidableEq

/-- Quantization of a risk score into a risk level, exactly the
conditional `risk_score > 0.7 ? 'HIGH' : risk_score > 0.4 ? 'MEDIUM' :
'LOW'` that `mockSimulate` applies to its own `risk_score` (and the
spec's §4.2 rule). -/
def riskLevelOfScore (s : ℚ) : RiskLevel :=
  if s > 0.7 then RiskLevel.HIGH
  else if s > 0.4 then RiskLevel.MEDIUM
  else RiskLevel.LOW

/-- One raw CSV record as consumed by `mockPredict`: the string values of
the four columns it reads. A column missing from the upload is the empty
string (both `''` and JS `undefined` are falsy in the `row.x || fallback`
expressions, so one falsy value suffices in the model). -/
structure RawRow where
  amount : String
  from_account : String
  to_account : String
  timestamp : String
deriving DecidableEq

/-- Random draws consumed by `mockPredict` for one row, one field per
`Math.random()` call site in the source, in source order:
`amtR` for `parseFloat(row.amount || Math.random() * 100000)` (already
scaled and parsed), `fromR`/`toR` for the generated `ACC-...` fallback
account strings, `scoreR` for `risk_score: Math.random()`, `lvlR1` and
`lvlR2` for the two fresh draws in the `risk_level` conditional, and
`reasonR` for the `reason_codes` slice length. -/
structure RowRand where
  amtR : ℚ
  fromR : String
  toR : String
  scoreR : ℚ
  lvlR1 : ℚ
  lvlR2 : ℚ
  reasonR : ℚ
deriving DecidableEq

/-- The constant pool `['LARGE_AMOUNT', 'UNUSUAL_PATTERN', 'CROSS_BORDER']`. -/
def reasonPool : List String :=
  ["LARGE_AMOUNT", "UNUSUAL_PATTERN", "CROSS_BORDER"]

/-- The transaction `mockPredict` builds for the row at position `i` of
the sliced batch. `risk_score` is one random draw (`scoreR`) while
`risk_level` is computed from two further independent draws
(`lvlR1`, `lvlR2`), exactly as in the source. A non-numeric non-empty
`row.amount` would give JS `NaN`; that case is modelled as `0` and is
exercised by no claim. -/
def predictRow (rand : ℕ → RowRand) (now : String) (i : ℕ) (row : RawRow) : Transaction :=
  let r := rand i
  { id := txnId i
    amount :=
      if row.amount = "" then r.amtR
      else match jsParseFloat row.amount with
        | some q => q
        | none => 0
    from_account := if row.from_account = "" then r.fromR else row.from_account
    to_account := if row.to_account = "" then r.toR else row.to_account
    timestamp := if row.timestamp = "" then now else row.timestamp
    risk_score := r.scoreR
    risk_level :=
      if r.lvlR1 > 0.7 then RiskLevel.HIGH
      else if r.lvlR2 > 0.4 then RiskLevel.MEDIUM
      else RiskLevel.LOW
    reason_codes := reasonPool.take (Int.toNat (⌊r.reasonR * 3⌋ + 1))
    status := TxStatus.FLAGGED }

/-- Index-aware map underlying `mockPredict` (`.map((row, index) => ...)`). -/
def predictMap (rand : ℕ → RowRand) (now : String) : ℕ → List RawRow → List Transaction
  | _, [] => []
  | i, row :: rest => predictRow rand now i row :: predictMap rand now (i + 1) rest

/-- The `mockPredict` ingestion function: slices the batch to its first
`Math.min(10, data.length)` rows and maps each row to an annotated
transaction. It has no failure channel and performs no validation. -/
def mockPredict (rand : ℕ → RowRand) (now : String) (data : List RawRow) : List Transaction :=
  predictMap rand now 0 (data.take (min 10 data.length))

/-- The `SimulationResult` interface of `TransactionSimulator.tsx`. -/
structure SimulationResult where
  risk_score : ℚ
  risk_level : RiskLevel
  risk_factors : List String
  explanation : String
deriving DecidableEq

/-- The constant pool `['LARGE_AMOUNT', 'UNUSUAL_TIME', 'NEW_RECIPIENT']`. -/
def simFactorPool : List String :=
  ["LARGE_AMOUNT", "UNUSUAL_TIME", "NEW_RECIPIENT"]

/-- Random draws consumed by one `mockSimulate` call: `scoreR` for
`const risk_score = Math.random()` and `factorsR` for the
`risk_factors` slice length. -/
structure SimRand where
  scoreR : ℚ
  factorsR : ℚ
deriving DecidableEq

/-- The hypothetical transaction `handleSimulate` passes to `onSimulate`:
the spread form fields with `amount` replaced by `parseFloat(formData.amount)`
(`none` models NaN) and a fresh `timestamp`. -/
structure SimTxn where
  amount : Option ℚ
  from_account : String
  to_account : String
  transaction_type : String
  timestamp : String
deriving DecidableEq

/-- The `mockSimulate` scoring function. Its `risk_level` is computed
from the same `risk_score` draw, unlike `mockPredict`. The transaction
argument is ignored by the source and by the model. -/
def mockSimulate (r : SimRand) (_tx : SimTxn) : SimulationResult :=
  let risk_score := r.scoreR
  let risk_level :=
    if risk_score > 0.7 then RiskLevel.HIGH
    else if risk_score > 0.4 then RiskLevel.MEDIUM
    else RiskLevel.LOW
  { risk_score := risk_score
    risk_level := risk_level
    risk_factors := simFactorPool.take (Int.toNat (⌊r.factorsR * 3⌋ + 1))
    explanation :=
      "This transaction has a " ++ jsToLower (riskLevelStr risk_level) ++
        " risk profile based on amount, timing, and recipient analysis." }

/-- The `AccountNode` shape produced for `GraphVisualization`. -/
structure AccountNode where
  id : String
  label : String
  risk_level : RiskLevel
  account_type : String
  total_volume : ℚ
deriving DecidableEq

/-- The `AccountEdge` shape produced for `GraphVisualization` (`from` and
`to` are reserved words here, hence `from_` and `to_`). -/
structure AccountEdge where
  from_ : String
  to_ : String
  amount : ℚ
  suspicious : Bool
deriving DecidableEq

/-- The `graphNodes` derivation of `AMLDashboard`: one node per stored
transaction (the map index is unused in the source), keyed and labelled
by that transaction's `from_account`, carrying that single transaction's
amount as `total_volume` and its `risk_level`. -/
def graphNodes (suspiciousTransactions : List Transaction) : List AccountNode :=
  suspiciousTransactions.map (fun tx =>
    { id := tx.from_account
      label := tx.from_account
      risk_level := tx.risk_level
      account_type := "Standard"
      total_volume := tx.amount })

/-- The `graphEdges` derivation of `AMLDashboard`: one edge per stored
transaction, suspicious iff its risk level is HIGH. -/
def graphEdges (suspiciousTransactions : List Transaction) : List AccountEdge :=
  suspiciousTransactions.map (fun tx =>
    { from_ := tx.from_account
      to_ := tx.to_account
      amount := tx.amount
      suspicious := tx.risk_level == RiskLevel.HIGH })

/-- The `AMLDashboard` component state relevant to the claims. -/
structure DashboardState where
  uploadedData : List RawRow
  suspiciousTransactions : List Transaction
  selectedTransaction : Option Transaction
deriving DecidableEq

/-- The `handleDataUpload` handler: stores the raw batch and replaces the
suspicious-transaction list with `mockPredict`'s output. The model has no
failure path because `mockPredict` has none. -/
def handleDataUpload (rand : ℕ → RowRand) (now : String) (s : DashboardState)
    (data : List RawRow) : DashboardState :=
  { s with uploadedData := data, suspiciousTransactions := mockPredict rand now data }

/-- The simulator form state (`formData` in `TransactionSimulator.tsx`). -/
structure FormData where
  amount : String
  from_account : String
  to_account : String
  transaction_type : String
deriving DecidableEq

/-- The `TransactionSimulator` component state. -/
structure SimulatorState where
  formData : FormData
  result : Option SimulationResult
  isLoading : Bool
deriving DecidableEq

/-- Combined application state: the dashboard (which owns the transaction
store and graph inputs) and the simulator. -/
structure AppState where
  dash : DashboardState
  sim : SimulatorState
deriving DecidableEq

/-- Observable outcome of one `handleSimulate` call: the state after the
handler returns, the transaction passed to `onSimulate` (`none` when the
scorer was never invoked), and the toast message shown, if any. -/
structure SimulateOutcome where
  state : AppState
  invoked : Option SimTxn
  toast : Option String
deriving DecidableEq

/-- The `handleSimulate` handler of `TransactionSimulator.tsx`. When any
of the three required form fields is the empty string (JS falsy for
strings), it toasts "Missing Information" and returns before touching any
state or calling `onSimulate`. Otherwise it builds the hypothetical
transaction, calls `onSimulate` (wired to `mockSimulate` in
`AMLDashboard`), stores the result and finally clears `isLoading`. -/
def handleSimulate (r : SimRand) (now : String) (app : AppState) : SimulateOutcome :=
  let fd := app.sim.formData
  if fd.amount = "" ∨ fd.from_account = "" ∨ fd.to_account = "" then
    { state := app, invoked := none, toast := some "Missing Information" }
  else
    let txn : SimTxn :=
      { amount := jsParseFloat fd.amount
        from_account := fd.from_account
        to_account := fd.to_account
        transaction_type := fd.transaction_type
        timestamp := now }
    let res := mockSimulate r txn
    { state := { app with sim := { app.sim with result := some res, isLoading := false } }
      invoked := some txn
      toast := none }

/-- Any finite sequence of simulate clicks, each with its own random
draws and timestamp. -/
def runSimulations (calls : List (SimRand × String)) (app : AppState) : AppState :=
  calls.foldl (fun s c => (handleSimulate c.1 c.2 s).state) app

/-- The sortable columns of the table (`keyof Transaction`). -/
inductive SortField where
  | id
  | amount
  | from_account
  | to_account
  | timestamp
  | risk_score
  | risk_level
  | reason_codes
  | status
deriving DecidableEq

/-- Sort direction (`'asc' | 'desc'`). -/
inductive SortDir where
  | asc
  | desc
deriving DecidableEq

/-- The free-text condition of the table filter: case-insensitive
substring match of the search term against `from_account`, `to_account`
or `id`. -/
def txMatchesSearch (searchTerm : String) (tx : Transaction) : Bool :=
  jsIncludes (jsToLower tx.from_account) (jsToLower searchTerm) ||
    jsIncludes (jsToLower tx.to_account) (jsToLower searchTerm) ||
    jsIncludes (jsToLower tx.id) (jsToLower searchTerm)

/-- The risk condition of the table filter: `filterRisk === 'all' ||
tx.risk_level === filterRisk`. -/
def txMatchesRisk (filterRisk : String) (tx : Transaction) : Bool :=
  filterRisk == "all" || riskLevelStr tx.risk_level == filterRisk

/-- The whole filter predicate (AND of the two conditions). -/
def txMatches (searchTerm filterRisk : String) (tx : Transaction) : Bool :=
  txMatchesSearch searchTerm tx && txMatchesRisk filterRisk tx

/-- String rendering `String(aVal)` of a non-numeric field (JS renders an
array as its comma-joined elements). -/
def fieldStr : SortField → Transaction → String
  | SortField.id, tx => tx.id
  | SortField.from_account, tx => tx.from_account
  | SortField.to_account, tx => tx.to_account
  | SortField.timestamp, tx => tx.timestamp
  | SortField.risk_level, tx => riskLevelStr tx.risk_level
  | SortField.reason_codes, tx => String.intercalate "," tx.reason_codes
  | SortField.status, tx => statusStr tx.status
  | SortField.amount, tx => tx.id
  | SortField.risk_score, tx => tx.id

/-- The comparator body of the table sort, before the direction
multiplier: `aVal - bVal` when both values are numbers (`amount`,
`risk_score`), otherwise `String(aVal).localeCompare(String(bVal))`.
The last two `fieldStr` equations are never reached: the two numeric
fields take the subtraction branch here, as their `typeof` test does in
the source. -/
def txCmp (f : SortField) (a b : Transaction) : ℚ :=
  match f with
  | SortField.amount => a.amount - b.amount
  | SortField.risk_score => a.risk_score - b.risk_score
  | _ => jsStrCmp (fieldStr f a) (fieldStr f b)

/-- The direction multiplier (`asc ? 1 : -1`). -/
def dirMult : SortDir → ℚ
  | SortDir.asc => 1
  | SortDir.desc => -1

/-- The boolean order the stable sort consumes: element `a` may precede
element `b` exactly when the comparator (with direction applied) is
non-positive. -/
def sortLe (f : SortField) (d : SortDir) (a b : Transaction) : Bool :=
  decide (txCmp f a b * dirMult d ≤ 0)

/-- The `filteredAndSortedTransactions` pipeline of
`SuspiciousTransactionsTable.tsx`: filter, then stable sort by the
selected field and direction. -/
def filteredAndSortedTransactions (searchTerm filterRisk : String)
    (f : SortField) (d : SortDir) (transactions : List Transaction) : List Transaction :=
  (transactions.filter (txMatches searchTerm filterRisk)).mergeSort (sortLe f d)

theorem predictMap_length (rand : ℕ → RowRand) (now : String) :
    ∀ (i : ℕ) (rows : List RawRow), (predictMap rand now i rows).length = rows.length
  | _, [] => rfl
  | i, _ :: rest => by
    simp [predictMap, predictMap_length rand now (i + 1) rest]

theorem predictMap_getElem? (rand : ℕ → RowRand) (now : String) :
    ∀ (i k : ℕ) (rows : List RawRow),
      (predictMap rand now i rows)[k]? = (rows[k]?).map (predictRow rand now (i + k))
  | _, _, [] => by simp [predictMap]
  | _, 0, _ :: _ => by simp [predictMap]
  | i, k + 1, _ :: rest => by
    rw [show i + (k + 1) = (i + 1) + k from by omega]
    simpa [predictMap] using predictMap_getElem? rand now (i + 1) k rest

theorem mockPredict_length (rand : ℕ → RowRand) (now : String) (data : List RawRow) :
    (mockPredict rand now data).length = min 10 data.length := by
  unfold mockPredict
  rw [predictMap_length, List.length_take]
  omega

/-- Random oracle whose score draw is 1 but whose two level draws are 0,
exposing the independence of the `risk_level` draws in `mockPredict`. -/
def randC1 : ℕ → RowRand :=
  fun _ => { amtR := 0, fromR := "F", toR := "G", scoreR := 1, lvlR1 := 0, lvlR2 := 0, reasonR := 0 }

/-- A fully populated raw row except for `amount` (so no parsing occurs). -/
def rowC1 : RawRow :=
  { amount := "", from_account := "A", to_account := "B", timestamp := "T" }

/-- C1, counterexample: `mockPredict` can return a transaction whose
`risk_score` is 1 (which quantizes to HIGH) while its `risk_level` is
LOW, because the level is computed from two fresh random draws rather
than from `risk_score`. -/
theorem mockPredict_level_independent_of_score :
    (mockPredict randC1 "T0" [rowC1]).map (fun tx => (tx.risk_score, tx.risk_level)) =
      [((1 : ℚ), RiskLevel.LOW)]
    ∧ riskLevelOfScore 1 = RiskLevel.HIGH ∧ RiskLevel.LOW ≠ RiskLevel.HIGH := by
  refine ⟨?_, ?_, by decide⟩
  · have h : (mockPredict randC1 "T0" [rowC1]).map (fun tx => (tx.risk_score, tx.risk_level)) =
        [((1 : ℚ),
          if (0 : ℚ) > 0.7 then RiskLevel.HIGH
          else if (0 : ℚ) > 0.4 then RiskLevel.MEDIUM
          else RiskLevel.LOW)] := rfl
    rw [h]
    norm_num
  · unfold riskLevelOfScore
    norm_num

/-- C1 (amended): every `mockSimulate` result has `risk_level` equal to
the quantization of its own `risk_score` (HIGH above 0.7, MEDIUM above
0.4, else LOW); `mockPredict` does not satisfy this, see the
counterexample. -/
theorem mockSimulate_level_quantizes_score :
    ∀ (r : SimRand) (tx : SimTxn),
      (mockSimulate r tx).risk_level = riskLevelOfScore (mockSimulate r tx).risk_score := by
  intro r tx
  rfl

/-- A LOW-risk transaction from account "A" to account "B". -/
def txAB : Transaction :=
  { id := "T1", amount := 10, from_account := "A", to_account := "B", timestamp := "T"
    risk_score := 0, risk_level := RiskLevel.LOW, reason_codes := [], status := TxStatus.FLAGGED }

/-- C2, counterexample: account "B" appears as `to_account` of a stored
transaction, yet no node of the derived graph carries id "B" — receiving
accounts get no node at all. -/
theorem graphNodes_misses_receiver :
    txAB.to_account = "B" ∧ (graphNodes [txAB]).all (fun n => n.id != "B") = true := by
  exact ⟨rfl, by decide⟩

/-- C2 (amended): the derived node list has exactly one node per stored
transaction (not per account), whose id and label are that transaction's
`from_account`, whose `total_volume` is that single transaction's amount
(no summation), and whose `risk_level` is that transaction's own level
(no maximum); accounts appearing only as `to_account` get no node, and a
repeated `from_account` yields duplicate nodes. -/
theorem graphNodes_one_node_per_transaction :
    ∀ (ts : List Transaction) (i : ℕ),
      (graphNodes ts).length = ts.length
      ∧ (graphNodes ts)[i]? = (ts[i]?).map (fun tx =>
          { id := tx.from_account, label := tx.from_account, risk_level := tx.risk_level
            account_type := "Standard", total_volume := tx.amount : AccountNode }) := by
  intro ts i
  exact ⟨by simp [graphNodes], by simp [graphNodes]⟩

/-- C9: the derived edge list has exactly one edge per stored transaction
(also when several transactions connect the same account pair), carrying
that transaction's accounts and amount, and marked suspicious exactly
when that transaction's risk level is HIGH. -/
theorem graphEdges_one_edge_per_transaction :
    ∀ (ts : List Transaction) (i : ℕ),
      (graphEdges ts).length = ts.length
      ∧ (graphEdges ts)[i]? = (ts[i]?).map (fun tx =>
          { from_ := tx.from_account, to_ := tx.to_account, amount := tx.amount
            suspicious := tx.risk_level == RiskLevel.HIGH : AccountEdge })
      ∧ (∀ l : RiskLevel, ((l == RiskLevel.HIGH) = true ↔ l = RiskLevel.HIGH)) := by
  intro ts i
  refine ⟨by simp [graphEdges], by simp [graphEdges], ?_⟩
  intro l
  cases l <;> decide

/-- A raw row carrying the negative amount "-5". -/
def rowNeg : RawRow :=
  { amount := "-5", from_account := "A", to_account := "B", timestamp := "T" }

/-- A zero random oracle. -/
def randZ : ℕ → RowRand :=
  fun _ => { amtR := 0, fromR := "F", toR := "G", scoreR := 0, lvlR1 := 0, lvlR2 := 0, reasonR := 0 }

/-- The empty dashboard session. -/
def dashEmpty : DashboardState :=
  { uploadedData := [], suspiciousTransactions := [], selectedTransaction := none }

theorem parseFloat_neg5 : jsParseFloat "-5" = some (-5) := by
  have h : jsParseFloat "-5" =
      some (-(((5 : ℕ) : ℚ) + ((0 : ℕ) : ℚ) / (10 : ℚ) ^ (0 : ℕ))) := rfl
  rw [h]
  norm_num

/-- C3, counterexample: ingesting a batch whose single transaction has
amount "-5" into the empty store does not fail and does not leave the
store empty — the store ends up holding one transaction whose amount is
-5. -/
theorem ingest_negative_amount_is_stored :
    (handleDataUpload randZ "T0" dashEmpty [rowNeg]).suspiciousTransactions.length = 1
    ∧ (handleDataUpload randZ "T0" dashEmpty [rowNeg]).suspiciousTransactions.map
        Transaction.amount = [(-5 : ℚ)] := by
  refine ⟨rfl, ?_⟩
  have h : (handleDataUpload randZ "T0" dashEmpty [rowNeg]).suspiciousTransactions.map
      Transaction.amount = [-(((5 : ℕ) : ℚ) + ((0 : ℕ) : ℚ) / (10 : ℚ) ^ (0 : ℕ))] := rfl
  rw [h]
  norm_num

/-- C3 (amended): ingestion performs no validation and has no failure
channel: for every random source, timestamp, prior session and batch,
`handleDataUpload` replaces the store with `mockPredict`'s output of
`min 10 n` transactions, regardless of amounts or account fields; in
particular the batch containing the amount "-5" is stored, with that
transaction's amount equal to -5. -/
theorem ingest_never_validates :
    ∀ (rand : ℕ → RowRand) (now : String) (s : DashboardState) (data : List RawRow),
      (handleDataUpload rand now s data).suspiciousTransactions = mockPredict rand now data
      ∧ (mockPredict rand now data).length = min 10 data.length
      ∧ (handleDataUpload randZ "T0" dashEmpty [rowNeg]).suspiciousTransactions.map
          Transaction.amount = [(-5 : ℚ)] := by
  intro rand now s data
  refine ⟨rfl, mockPredict_length rand now data, ?_⟩
  have h : (handleDataUpload randZ "T0" dashEmpty [rowNeg]).suspiciousTransactions.map
      Transaction.amount = [-(((5 : ℕ) : ℚ) + ((0 : ℕ) : ℚ) / (10 : ℚ) ^ (0 : ℕ))] := rfl
  rw [h]
  norm_num

/-- A raw row with every column empty. -/
def rowEmpty : RawRow :=
  { amount := "", from_account := "", to_account := "", timestamp := "" }

/-- An eleven-row batch. -/
def rows11 : List RawRow :=
  List.replicate 11 rowEmpty

/-- C4, counterexample: an eleven-record batch yields only ten
transactions — the records beyond the tenth are silently dropped, so
ingestion does not return a transaction for every record. -/
theorem ingest_drops_after_ten :
    rows11.length = 11 ∧ (mockPredict randZ "T0" rows11).length = 10 := by
  exact ⟨rfl, rfl⟩

/-- C4 (amended): ingestion returns one transaction per record only for
the first `min 10 n` records of the batch, in input order (position `i`
of the output is `predictRow` applied to record `i`, and carries the
position-derived id `txnId i`); all records beyond the tenth are
dropped. -/
theorem ingest_order_first_ten :
    ∀ (rand : ℕ → RowRand) (now : String) (data : List RawRow),
      (mockPredict rand now data).length = min 10 data.length
      ∧ (∀ i : Fin 10,
          (mockPredict rand now data)[(i : ℕ)]? =
            (data[(i : ℕ)]?).map (predictRow rand now (i : ℕ)))
      ∧ (∀ (i : ℕ) (row : RawRow), (predictRow rand now i row).id = txnId i) := by
  intro rand now data
  refine ⟨mockPredict_length rand now data, ?_, fun i row => rfl⟩
  intro i
  obtain ⟨iv, hi⟩ := i
  show (mockPredict rand now data)[iv]? = (data[iv]?).map (predictRow rand now iv)
  unfold mockPredict
  rw [predictMap_getElem?]
  rw [Nat.zero_add]
  rw [List.getElem?_take]
  by_cases h : iv < min 10 data.length
  · rw [if_pos h]
  · rw [if_neg h, List.getElem?_eq_none (by omega : data.length ≤ iv)]

theorem handleSimulate_dash_eq (r : SimRand) (now : String) (app : AppState) :
    (handleSimulate r now app).state.dash = app.dash := by
  simp only [handleSimulate]
  by_cases h : app.sim.formData.amount = "" ∨ app.sim.formData.from_account = "" ∨
      app.sim.formData.to_account = ""
  · rw [if_pos h]
  · rw [if_neg h]

/-- C5: simulation is non-committing. Any finite sequence of simulate
calls (arbitrary form contents, random draws and timestamps) leaves the
dashboard state — in particular the stored transaction list and the
graph derived from it (nodes and edges) — exactly as it was. -/
theorem simulate_non_committing :
    ∀ (calls : List (SimRand × String)) (app : AppState),
      (runSimulations calls app).dash = app.dash
      ∧ (runSimulations calls app).dash.suspiciousTransactions =
          app.dash.suspiciousTransactions
      ∧ graphNodes ((runSimulations calls app).dash.suspiciousTransactions) =
          graphNodes app.dash.suspiciousTransactions
      ∧ graphEdges ((runSimulations calls app).dash.suspiciousTransactions) =
          graphEdges app.dash.suspiciousTransactions := by
  intro calls app
  have key : ∀ (cs : List (SimRand × String)) (a : AppState),
      (runSimulations cs a).dash = a.dash := by
    intro cs
    induction cs with
    | nil => intro a; rfl
    | cons c rest ih =>
      intro a
      show (runSimulations rest (handleSimulate c.1 c.2 a).state).dash = a.dash
      rw [ih, handleSimulate_dash_eq]
  refine ⟨key calls app, ?_, ?_, ?_⟩ <;> rw [key calls app]

/-- C10: when the amount, from-account or to-account form field is
empty, the simulate handler reports the "Missing Information" toast,
never invokes the scorer, and leaves the whole application state — in
particular the previous simulation result — unchanged. -/
theorem simulate_requires_all_fields :
    ∀ (r : SimRand) (now : String) (app : AppState),
      (app.sim.formData.amount = "" ∨ app.sim.formData.from_account = "" ∨
        app.sim.formData.to_account = "") →
      (handleSimulate r now app).invoked = none
      ∧ (handleSimulate r now app).state = app
      ∧ (handleSimulate r now app).state.sim.result = app.sim.result
      ∧ (handleSimulate r now app).toast = some "Missing Information" := by
  intro r now app h
  unfold handleSimulate
  rw [if_pos h]
  exact ⟨rfl, rfl, rfl, rfl⟩

/-- An application state whose simulator form has an empty amount. -/
def appC10 : AppState :=
  { dash := dashEmpty
    sim := { formData := { amount := "", from_account := "ACC-1", to_account := "ACC-2"
                           transaction_type := "transfer" }
             result := none, isLoading := false } }

/-- C10, witness: the guard theorem applied to a concrete state with an
empty amount field. -/
theorem simulate_requires_all_fields_witness :
    (appC10.sim.formData.amount = "" ∨ appC10.sim.formData.from_account = "" ∨
      appC10.sim.formData.to_account = "")
    ∧ ((handleSimulate ⟨0, 0⟩ "T0" appC10).invoked = none
      ∧ (handleSimulate ⟨0, 0⟩ "T0" appC10).state = appC10
      ∧ (handleSimulate ⟨0, 0⟩ "T0" appC10).state.sim.result = appC10.sim.result
      ∧ (handleSimulate ⟨0, 0⟩ "T0" appC10).toast = some "Missing Information") :=
  ⟨Or.inl rfl, simulate_requires_all_fields ⟨0, 0⟩ "T0" appC10 (Or.inl rfl)⟩

theorem lexCmp_swap : ∀ (as bs : List Char), lexCmp as bs = (lexCmp bs as).swap
  | [], [] => rfl
  | [], _ :: _ => rfl
  | _ :: _, [] => rfl
  | a :: as, b :: bs => by
    simp only [lexCmp]
    rcases lt_trichotomy a b with h | h | h
    · rw [if_pos h, if_neg (lt_asymm h), if_pos h]
      rfl
    · subst h
      simp only [if_neg (lt_irrefl a)]
      exact lexCmp_swap as bs
    · rw [if_neg (lt_asymm h), if_pos h, if_pos h]
      rfl

theorem lexCmp_nil_ne_gt : ∀ (cs : List Char), lexCmp [] cs ≠ Ordering.gt := by
  intro cs
  cases cs <;> simp [lexCmp]

theorem lexLe_trans :
    ∀ (as bs cs : List Char),
      lexCmp as bs ≠ Ordering.gt → lexCmp bs cs ≠ Ordering.gt → lexCmp as cs ≠ Ordering.gt
  | [], _, cs, _, _ => lexCmp_nil_ne_gt cs
  | _ :: _, [], _, h1, _ => absurd rfl h1
  | _ :: _, _ :: _, [], _, h2 => absurd rfl h2
  | a :: as, b :: bs, c :: cs, h1, h2 => by
    simp only [lexCmp] at h1 h2 ⊢
    rcases lt_trichotomy a b with hab | hab | hab
    · rcases lt_trichotomy b c with hbc | hbc | hbc
      · rw [if_pos (lt_trans hab hbc)]
        simp
      · subst hbc
        rw [if_pos hab]
        simp
      · rw [if_neg (lt_asymm hbc), if_pos hbc] at h2
        exact absurd rfl h2
    · subst hab
      rcases lt_trichotomy a c with hac | hac | hac
      · rw [if_pos hac]
        simp
      · subst hac
        rw [if_neg (lt_irrefl a), if_neg (lt_irrefl a)] at h1 h2 ⊢
        exact lexLe_trans as bs cs h1 h2
      · rw [if_neg (lt_asymm hac), if_pos hac] at h2
        exact absurd rfl h2
    · rw [if_neg (lt_asymm hab), if_pos hab] at h1
      exact absurd rfl h1

theorem jsStrCmp_nonpos_iff (s t : String) :
    jsStrCmp s t ≤ 0 ↔ lexCmp s.data t.data ≠ Ordering.gt := by
  unfold jsStrCmp
  cases h : lexCmp s.data t.data <;> simp [h]

theorem jsStrCmp_swap (s t : String) : jsStrCmp t s = -jsStrCmp s t := by
  unfold jsStrCmp
  rw [lexCmp_swap t.data s.data]
  cases lexCmp s.data t.data <;> simp [Ordering.swap]

theorem txCmp_swap : ∀ (f : SortField) (a b : Transaction), txCmp f b a = -txCmp f a b := by
  intro f a b
  cases f <;> simp only [txCmp] <;> first
    | rw [neg_sub]
    | rw [jsStrCmp_swap]

theorem txCmp_nonpos_trans :
    ∀ (f : SortField) (a b c : Transaction),
      txCmp f a b ≤ 0 → txCmp f b c ≤ 0 → txCmp f a c ≤ 0 := by
  intro f a b c h1 h2
  cases f <;> simp only [txCmp] at h1 h2 ⊢ <;> first
    | linarith
    | (rw [jsStrCmp_nonpos_iff] at h1 h2 ⊢
       exact lexLe_trans _ _ _ h1 h2)

theorem txCmp_nonpos_total :
    ∀ (f : SortField) (a b : Transaction), txCmp f a b ≤ 0 ∨ txCmp f b a ≤ 0 := by
  intro f a b
  rcases le_total (txCmp f a b) 0 with h | h
  · exact Or.inl h
  · refine Or.inr ?_
    rw [txCmp_swap]
    linarith

theorem sortLe_asc_eq (f : SortField) (a b : Transaction) :
    sortLe f SortDir.asc a b = decide (txCmp f a b ≤ 0) := by
  simp [sortLe, dirMult]

theorem sortLe_desc_eq (f : SortField) (a b : Transaction) :
    sortLe f SortDir.desc a b = decide (0 ≤ txCmp f a b) := by
  unfold sortLe dirMult
  rw [mul_neg_one]
  exact decide_eq_decide.mpr neg_nonpos

theorem sortLe_trans (f : SortField) (d : SortDir) :
    ∀ (a b c : Transaction),
      sortLe f d a b = true → sortLe f d b c = true → sortLe f d a c = true := by
  intro a b c h1 h2
  cases d
  · rw [sortLe_asc_eq] at h1 h2 ⊢
    rw [decide_eq_true_eq] at h1 h2 ⊢
    exact txCmp_nonpos_trans f a b c h1 h2
  · rw [sortLe_desc_eq] at h1 h2 ⊢
    rw [decide_eq_true_eq] at h1 h2 ⊢
    have h1' : txCmp f b a ≤ 0 := by rw [txCmp_swap]; linarith
    have h2' : txCmp f c b ≤ 0 := by rw [txCmp_swap]; linarith
    have := txCmp_nonpos_trans f c b a h2' h1'
    rw [txCmp_swap] at this
    linarith

theorem sortLe_total (f : SortField) (d : SortDir) :
    ∀ (a b : Transaction), (sortLe f d a b || sortLe f d b a) = true := by
  intro a b
  rw [Bool.or_eq_true]
  cases d
  · rw [sortLe_asc_eq, sortLe_asc_eq, decide_eq_true_eq, decide_eq_true_eq]
    exact txCmp_nonpos_total f a b
  · rw [sortLe_desc_eq, sortLe_desc_eq, decide_eq_true_eq, decide_eq_true_eq]
    rcases txCmp_nonpos_total f a b with h | h
    · refine Or.inr ?_
      rw [txCmp_swap]
      linarith
    · refine Or.inl ?_
      rw [txCmp_swap] at h
      linarith

theorem sortLe_of_txCmp_eq_zero (f : SortField) (d : SortDir) (a b : Transaction)
    (h : txCmp f a b = 0) : sortLe f d a b = true := by
  unfold sortLe
  rw [h, zero_mul]
  exact decide_eq_true le_rfl

theorem strHas_nil : ∀ (cs : List Char), strHas [] cs = true := by
  intro cs
  cases cs <;> simp [strHas, strStarts]

/-- C6: a transaction appears in the query output exactly when it is a
stored transaction matching both filter conditions — the case-insensitive
substring condition against `from_account`, `to_account` or `id`, and the
risk-level condition; the empty search term matches every transaction and
the "all" selector matches every risk level. -/
theorem filter_semantics :
    ∀ (transactions : List Transaction) (searchTerm filterRisk : String)
      (f : SortField) (d : SortDir) (tx : Transaction),
      (tx ∈ filteredAndSortedTransactions searchTerm filterRisk f d transactions ↔
        tx ∈ transactions ∧ txMatchesSearch searchTerm tx = true ∧
          txMatchesRisk filterRisk tx = true)
      ∧ txMatchesSearch "" tx = true
      ∧ txMatchesRisk "all" tx = true := by
  intro txs s r f d tx
  refine ⟨?_, ?_, ?_⟩
  · unfold filteredAndSortedTransactions
    simp [List.mem_mergeSort, List.mem_filter, txMatches, Bool.and_eq_true]
  · have h0 : jsToLower "" = "" := rfl
    have h1 : ("" : String).data = [] := rfl
    simp [txMatchesSearch, jsIncludes, h0, h1, strHas_nil]
  · unfold txMatchesRisk
    rw [show (("all" : String) == "all") = true from by decide]
    rfl

/-- C7: the query is a pure function — identical arguments yield
identical output, and the output is a permutation of the filtered input
(the input sequence itself is never mutated, being a value) — and the
sort is stable: any selection of stored transactions that all pass the
filter and are pairwise tied under the comparator appears in the output
in its original insertion order. -/
theorem query_deterministic_stable :
    ∀ (transactions : List Transaction) (searchTerm filterRisk : String)
      (f : SortField) (d : SortDir),
      filteredAndSortedTransactions searchTerm filterRisk f d transactions =
        filteredAndSortedTransactions searchTerm filterRisk f d transactions
      ∧ (filteredAndSortedTransactions searchTerm filterRisk f d transactions).Perm
          (transactions.filter (txMatches searchTerm filterRisk))
      ∧ ∀ l : List Transaction, l.Sublist transactions →
          (∀ tx ∈ l, txMatches searchTerm filterRisk tx = true) →
          l.Pairwise (fun a b => txCmp f a b = 0) →
          l.Sublist (filteredAndSortedTransactions searchTerm filterRisk f d transactions) := by
  intro txs s r f d
  refine ⟨rfl, List.mergeSort_perm _ _, ?_⟩
  intro l hsub hall hpw
  have h1 : l.Sublist (txs.filter (txMatches s r)) := by
    have h2 := hsub.filter (txMatches s r)
    rwa [List.filter_eq_self.mpr hall] at h2
  have hpw' : l.Pairwise (fun a b => sortLe f d a b = true) :=
    hpw.imp (fun h => sortLe_of_txCmp_eq_zero f d _ _ h)
  exact List.sublist_mergeSort (sortLe_trans f d) (sortLe_total f d) hpw' h1

/-- A HIGH-risk transaction between accounts "X" and "Y". -/
def tA : Transaction :=
  { id := "TA", amount := 0, from_account := "X", to_account := "Y", timestamp := "T"
    risk_score := 0, risk_level := RiskLevel.HIGH, reason_codes := [], status := TxStatus.FLAGGED }

/-- A second HIGH-risk transaction, tied with `tA` under a risk-level sort. -/
def tB : Transaction :=
  { id := "TB", amount := 0, from_account := "X", to_account := "Y", timestamp := "T"
    risk_score := 0, risk_level := RiskLevel.HIGH, reason_codes := [], status := TxStatus.FLAGGED }

/-- C7, witness: two tied HIGH-risk transactions pass the trivial filter
and keep their insertion order through a risk-level sort. -/
theorem query_deterministic_stable_witness :
    (List.Sublist [tA, tB] [tA, tB]
      ∧ (∀ tx ∈ [tA, tB], txMatches "" "all" tx = true)
      ∧ List.Pairwise (fun a b => txCmp SortField.risk_level a b = 0) [tA, tB])
    ∧ List.Sublist [tA, tB]
        (filteredAndSortedTransactions "" "all" SortField.risk_level SortDir.asc [tA, tB]) :=
  ⟨⟨List.Sublist.refl _, by decide, by decide⟩,
    (query_deterministic_stable [tA, tB] "" "all" SortField.risk_level SortDir.asc).2.2
      [tA, tB] (List.Sublist.refl _) (by decide) (by decide)⟩

/-- A HIGH-risk transaction used in the sort-order example. -/
def txH : Transaction :=
  { id := "T1", amount := 0, from_account := "A1", to_account := "B1", timestamp := "T"
    risk_score := 0, risk_level := RiskLevel.HIGH, reason_codes := [], status := TxStatus.FLAGGED }

/-- A MEDIUM-risk transaction used in the sort-order example. -/
def txM : Transaction :=
  { id := "T2", amount := 0, from_account := "A2", to_account := "B2", timestamp := "T"
    risk_score := 0, risk_level := RiskLevel.MEDIUM, reason_codes := [], status := TxStatus.FLAGGED }

/-- A LOW-risk transaction used in the sort-order example. -/
def txL : Transaction :=
  { id := "T3", amount := 0, from_account := "A3", to_account := "B3", timestamp := "T"
    risk_score := 0, risk_level := RiskLevel.LOW, reason_codes := [], status := TxStatus.FLAGGED }

/-- C8: the comparator orders the numeric fields (`amount`, `risk_score`)
numerically — ascending or descending — and every other field by
case-sensitive code-point lexicographic comparison of its string form;
in particular an ascending risk-level sort orders the string forms
alphabetically, HIGH before LOW before MEDIUM, not by severity. -/
theorem sort_comparator_semantics :
    (∀ a b : Transaction, sortLe SortField.amount SortDir.asc a b = true ↔ a.amount ≤ b.amount)
    ∧ (∀ a b : Transaction, sortLe SortField.amount SortDir.desc a b = true ↔ b.amount ≤ a.amount)
    ∧ (∀ a b : Transaction,
        sortLe SortField.risk_score SortDir.asc a b = true ↔ a.risk_score ≤ b.risk_score)
    ∧ (∀ a b : Transaction,
        sortLe SortField.id SortDir.asc a b = true ↔ lexCmp a.id.data b.id.data ≠ Ordering.gt)
    ∧ (∀ a b : Transaction,
        sortLe SortField.risk_level SortDir.asc a b = true ↔
          lexCmp (riskLevelStr a.risk_level).data (riskLevelStr b.risk_level).data ≠ Ordering.gt)
    ∧ filteredAndSortedTransactions "" "all" SortField.risk_level SortDir.asc [txM, txH, txL] =
        [txH, txL, txM] := by
  refine ⟨?_, ?_, ?_, ?_, ?_, ?_⟩
  · intro a b
    rw [sortLe_asc_eq, decide_eq_true_eq]
    simp only [txCmp]
    exact sub_nonpos
  · intro a b
    rw [sortLe_desc_eq, decide_eq_true_eq]
    simp only [txCmp]
    exact sub_nonneg
  · intro a b
    rw [sortLe_asc_eq, decide_eq_true_eq]
    simp only [txCmp]
    exact sub_nonpos
  · intro a b
    rw [sortLe_asc_eq, decide_eq_true_eq]
    simp only [txCmp, fieldStr]
    exact jsStrCmp_nonpos_iff _ _
  · intro a b
    rw [sortLe_asc_eq, decide_eq_true_eq]
    simp only [txCmp, fieldStr]
    exact jsStrCmp_nonpos_iff _ _
  · have hfilter : List.filter (txMatches "" "all") [txM, txH, txL] = [txM, txH, txL] := by
      decide
    have w : ∀ a b : Transaction,
        a ∈ ([txM, txH, txL]).mergeSort (sortLe SortField.risk_level SortDir.asc) →
        b ∈ [txH, txL, txM] →
        sortLe SortField.risk_level SortDir.asc a b = true →
        sortLe SortField.risk_level SortDir.asc b a = true → a = b := by
      intro a b ha hb
      rw [List.mem_mergeSort] at ha
      simp only [List.mem_cons, List.not_mem_nil, or_false] at ha hb
      rcases ha with rfl | rfl | rfl <;> rcases hb with rfl | rfl | rfl <;>
        (simp only [sortLe_asc_eq]; decide)
    have sorted₁ : (([txM, txH, txL]).mergeSort
        (sortLe SortField.risk_level SortDir.asc)).Pairwise
          (fun a b => sortLe SortField.risk_level SortDir.asc a b = true) :=
      List.sorted_mergeSort (sortLe_trans SortField.risk_level SortDir.asc)
        (sortLe_total SortField.risk_level SortDir.asc) _
    have sorted₂ : ([txH, txL, txM]).Pairwise
        (fun a b => sortLe SortField.risk_level SortDir.asc a b = true) := by
      refine List.Pairwise.cons ?_ (List.Pairwise.cons ?_ (List.pairwise_singleton _ _))
      · intro x hx
        simp only [List.mem_cons, List.not_mem_nil, or_false] at hx
        rcases hx with rfl | rfl <;> (rw [sortLe_asc_eq]; decide)
      · intro x hx
        simp only [List.mem_cons, List.not_mem_nil, or_false] at hx
        rcases hx with rfl
        rw [sortLe_asc_eq]
        decide
    have hperm : (([txM, txH, txL]).mergeSort
        (sortLe SortField.risk_level SortDir.asc)).Perm [txH, txL, txM] := by
      exact (List.mergeSort_perm _ _).trans
        ((List.Perm.swap txH txM [txL]).trans (List.Perm.cons txH (List.Perm.swap txL txM [])))
    have hsort : ([txM, txH, txL]).mergeSort (sortLe SortField.risk_level SortDir.asc) =
        [txH, txL, txM] :=
      List.Perm.eq_of_sorted w sorted₁ sorted₂ hperm
    unfold filteredAndSortedTransactions
    rw [hfilter, hsort]
